import Mathlib

/-!
Shallow embedding of the DS1307 real-time-clock driver (src/src/lib.rs).

Bytes are modelled as `Nat` values below 256; where Rust's `u8` arithmetic
can wrap, an explicit `% 256` appears.  The I2C transport (`embedded_hal`
blocking `Write` / `WriteRead`) is modelled as a pair of oracles; every
driver operation returns its `Result` together with the ordered list of bus
transactions it issued, so that statements about "how many transactions were
issued" and "what bytes were written" can be made.
-/

set_option maxRecDepth 8192

namespace Ds1307

/-- `enum Error<E>` from the source: I²C bus error, invalid input, internal. -/
inductive Error (E : Type) where
  | I2C (e : E)
  | InvalidInputData
  | InternalError
deriving DecidableEq

/-- `enum Hours`: 12-hour (AM/PM, 1-12) or 24-hour (0-23) format. -/
inductive Hours where
  | AM (h : Nat)
  | PM (h : Nat)
  | H24 (h : Nat)
deriving DecidableEq

namespace Register

def SECONDS : Nat := 0x00

def MINUTES : Nat := 0x01

def HOURS : Nat := 0x02

def DOW : Nat := 0x03

def DOM : Nat := 0x04

def MONTH : Nat := 0x05

def YEAR : Nat := 0x06

end Register

namespace BitFlags

def H24_H12 : Nat := 0b01000000

def AM_PM : Nat := 0b00100000

def CH : Nat := 0b10000000

end BitFlags

def DEVICE_ADDRESS : Nat := 0b1101000

/-- Bitwise complement on a `u8` value: `!x` in Rust for `x < 256`. -/
def not8 (x : Nat) : Nat := 255 - x % 256

/-- A bus transaction as recorded in an operation's log: either a plain
write of a payload, or a write-then-read (the driver always reads one byte). -/
inductive BusOp where
  | write (addr : Nat) (payload : List Nat)
  | writeRead (addr : Nat) (sent : List Nat)
deriving DecidableEq

/-- The transport collaborator: `Write::write` and `WriteRead::write_read`
from `embedded_hal`.  `writeRead` returns the single byte read into the
driver's one-byte buffer.  Both may fail with a transport error `E`. -/
structure Bus (E : Type) where
  write : Nat → List Nat → Except E Unit
  writeRead : Nat → List Nat → Except E Nat

/-- Runs a logged transaction against the bus, keeping only success/failure. -/
def runOp (bus : Bus E) : BusOp → Except E Unit
  | .write a p => bus.write a p
  | .writeRead a p => (bus.writeRead a p).map fun _ => ()

/-- `packed_bcd_to_decimal`: `(bcd >> 4) * 10 + (bcd & 0xF)`.
No `u8` overflow is possible (max 165), so no `% 256` is needed. -/
def packed_bcd_to_decimal (bcd : Nat) : Nat :=
  (bcd >>> 4) * 10 + (bcd &&& 0xF)

/-- `decimal_to_packed_bcd`: `((dec / 10) << 4) | (dec % 10)`.
The shift is on a `u8`, so bits shifted past bit 7 are discarded (`% 256`). -/
def decimal_to_packed_bcd (dec : Nat) : Nat :=
  (dec / 10 * 16 % 256) ||| dec % 10

/-- `is_24h_format`: bit 6 (`H24_H12`) clear means 24-hour format. -/
def is_24h_format (hours_data : Nat) : Bool :=
  hours_data &&& BitFlags.H24_H12 == 0

/-- `is_am`: bit 5 (`AM_PM`) clear means AM. -/
def is_am (hours_data : Nat) : Bool :=
  hours_data &&& BitFlags.AM_PM == 0

/-- `remove_ch_bit`: `value & !BitFlags::CH`, clearing bit 7. -/
def remove_ch_bit (value : Nat) : Nat :=
  value &&& not8 BitFlags.CH

/-- `write_register`: one `write` transaction with payload `[register, data]`;
a transport failure is wrapped as `Error::I2C`. -/
def write_register (bus : Bus E) (register data : Nat) :
    Except (Error E) Unit × List BusOp :=
  match bus.write DEVICE_ADDRESS [register, data] with
  | .ok _ => (.ok (), [BusOp.write DEVICE_ADDRESS [register, data]])
  | .error e => (.error (.I2C e), [BusOp.write DEVICE_ADDRESS [register, data]])

/-- `read_register`: one `write_read` transaction sending `[register]` and
reading one byte; a transport failure is wrapped as `Error::I2C`. -/
def read_register (bus : Bus E) (register : Nat) :
    Except (Error E) Nat × List BusOp :=
  match bus.writeRead DEVICE_ADDRESS [register] with
  | .ok b => (.ok b, [BusOp.writeRead DEVICE_ADDRESS [register]])
  | .error e => (.error (.I2C e), [BusOp.writeRead DEVICE_ADDRESS [register]])

/-- `write_register_decimal`: BCD-encode then `write_register`. -/
def write_register_decimal (bus : Bus E) (register decimal_number : Nat) :
    Except (Error E) Unit × List BusOp :=
  write_register bus register (decimal_to_packed_bcd decimal_number)

/-- `read_register_decimal`: `read_register` then BCD-decode. -/
def read_register_decimal (bus : Bus E) (register : Nat) :
    Except (Error E) Nat × List BusOp :=
  match read_register bus register with
  | (.ok data, log) => (.ok (packed_bcd_to_decimal data), log)
  | (.error e, log) => (.error e, log)

/-- `get_seconds`: read the seconds register, clear the CH bit, BCD-decode. -/
def get_seconds (bus : Bus E) : Except (Error E) Nat × List BusOp :=
  match read_register bus Register.SECONDS with
  | (.ok data, log) => (.ok (packed_bcd_to_decimal (remove_ch_bit data)), log)
  | (.error e, log) => (.error e, log)

/-- `get_minutes`. -/
def get_minutes (bus : Bus E) : Except (Error E) Nat × List BusOp :=
  read_register_decimal bus Register.MINUTES

/-- The hours-decoding logic of `get_hours`, applied to the byte read from
the hours register: 24-hour iff bit 6 is clear, otherwise AM iff bit 5 is
clear; the mode bits are masked off before BCD-decoding. -/
def decode_hours (data : Nat) : Hours :=
  if is_24h_format data then
    Hours.H24 (packed_bcd_to_decimal (data &&& not8 BitFlags.H24_H12))
  else if is_am data then
    Hours.AM (packed_bcd_to_decimal
      (data &&& not8 (BitFlags.H24_H12 ||| BitFlags.AM_PM)))
  else
    Hours.PM (packed_bcd_to_decimal
      (data &&& not8 (BitFlags.H24_H12 ||| BitFlags.AM_PM)))

/-- `get_hours`: read the hours register and decode it. -/
def get_hours (bus : Bus E) : Except (Error E) Hours × List BusOp :=
  match read_register bus Register.HOURS with
  | (.ok data, log) => (.ok (decode_hours data), log)
  | (.error e, log) => (.error e, log)

/-- `get_day_of_week`. -/
def get_day_of_week (bus : Bus E) : Except (Error E) Nat × List BusOp :=
  read_register_decimal bus Register.DOW

/-- `get_day_of_month`. -/
def get_day_of_month (bus : Bus E) : Except (Error E) Nat × List BusOp :=
  read_register_decimal bus Register.DOM

/-- `get_month`. -/
def get_month (bus : Bus E) : Except (Error E) Nat × List BusOp :=
  read_register_decimal bus Register.MONTH

/-- `get_year`: decoded register value plus 2000. -/
def get_year (bus : Bus E) : Except (Error E) Nat × List BusOp :=
  match read_register_decimal bus Register.YEAR with
  | (.ok year, log) => (.ok (2000 + year), log)
  | (.error e, log) => (.error e, log)

/-- `set_seconds`: rejects `seconds > 59`; otherwise reads the seconds
register first to keep the CH bit, then writes
`data & BitFlags::CH | decimal_to_packed_bcd(seconds)`. -/
def set_seconds (bus : Bus E) (seconds : Nat) :
    Except (Error E) Unit × List BusOp :=
  if seconds > 59 then (.error .InvalidInputData, [])
  else
    match read_register bus Register.SECONDS with
    | (.ok data, log) =>
        let (r, log2) := write_register bus Register.SECONDS
          (data &&& BitFlags.CH ||| decimal_to_packed_bcd seconds)
        (r, log ++ log2)
    | (.error e, log) => (.error e, log)

/-- `set_minutes`: rejects `minutes > 59`, otherwise a decimal write. -/
def set_minutes (bus : Bus E) (minutes : Nat) :
    Except (Error E) Unit × List BusOp :=
  if minutes > 59 then (.error .InvalidInputData, [])
  else write_register_decimal bus Register.MINUTES minutes

/-- `set_hours`: validates per variant, then writes the BCD hour with the
mode bits implied by the variant (H24: none; AM: bit 6; PM: bits 6 and 5). -/
def set_hours (bus : Bus E) (hours : Hours) :
    Except (Error E) Unit × List BusOp :=
  match hours with
  | .H24 h =>
      if h > 23 then (.error .InvalidInputData, [])
      else write_register_decimal bus Register.HOURS h
  | .AM h =>
      if h < 1 ∨ h > 12 then (.error .InvalidInputData, [])
      else write_register bus Register.HOURS
        (BitFlags.H24_H12 ||| decimal_to_packed_bcd h)
  | .PM h =>
      if h < 1 ∨ h > 12 then (.error .InvalidInputData, [])
      else write_register bus Register.HOURS
        (BitFlags.H24_H12 ||| BitFlags.AM_PM ||| decimal_to_packed_bcd h)

/-- `set_day_of_week`: rejects values outside 1-7; writes the raw value
(no BCD encoding). -/
def set_day_of_week (bus : Bus E) (day_of_week : Nat) :
    Except (Error E) Unit × List BusOp :=
  if day_of_week < 1 ∨ day_of_week > 7 then (.error .InvalidInputData, [])
  else write_register bus Register.DOW day_of_week

/-- Modelled from the spec: `set_day_of_month` is absent from
`src/src/lib.rs` (only the integration test `tests/day_of_month.rs`
exercises a day-of-month setter).  Per spec section 4.2, day-of-month has
set input range 1-31 and is a plain decimal (BCD) write to the day-of-month
register 0x04, rejecting out-of-range input before any bus transaction. -/
def set_day_of_month (bus : Bus E) (day_of_month : Nat) :
    Except (Error E) Unit × List BusOp :=
  if day_of_month < 1 ∨ day_of_month > 31 then (.error .InvalidInputData, [])
  else write_register_decimal bus Register.DOM day_of_month

/-- `set_month`: rejects values outside 1-12, otherwise a decimal write. -/
def set_month (bus : Bus E) (month : Nat) :
    Except (Error E) Unit × List BusOp :=
  if month < 1 ∨ month > 12 then (.error .InvalidInputData, [])
  else write_register_decimal bus Register.MONTH month

/-- `set_year`: rejects values outside 2000-2099, otherwise writes the
BCD-encoded offset from 2000. -/
def set_year (bus : Bus E) (year : Nat) :
    Except (Error E) Unit × List BusOp :=
  if year < 2000 ∨ year > 2099 then (.error .InvalidInputData, [])
  else write_register_decimal bus Register.YEAR (year - 2000)

/-- The data byte `set_hours` writes for each variant (the validated path). -/
def hours_byte : Hours → Nat
  | .H24 h => decimal_to_packed_bcd h
  | .AM h => BitFlags.H24_H12 ||| decimal_to_packed_bcd h
  | .PM h => BitFlags.H24_H12 ||| BitFlags.AM_PM ||| decimal_to_packed_bcd h

/-- The documented valid range of an `Hours` value. -/
def validHours : Hours → Prop
  | .H24 h => h ≤ 23
  | .AM h => 1 ≤ h ∧ h ≤ 12
  | .PM h => 1 ≤ h ∧ h ≤ 12

instance : DecidablePred validHours := fun hrs => by
  cases hrs <;> simp [validHours] <;> infer_instance

/-- A bus whose reads always return `b` and whose writes always succeed. -/
def busConst (b : Nat) : Bus Unit :=
  ⟨fun _ _ => .ok (), fun _ _ => .ok b⟩

end Ds1307

namespace Ds1307

/-- C4: for every decimal `d` with `0 ≤ d ≤ 99`,
`decode_bcd (encode_bcd d) = d`, with `encode_bcd = decimal_to_packed_bcd`
and `decode_bcd = packed_bcd_to_decimal` as defined in the source. -/
theorem bcd_round_trip (d : Nat) (hd : d ≤ 99) :
    packed_bcd_to_decimal (decimal_to_packed_bcd d) = d := by
  have h : ∀ x < 100, packed_bcd_to_decimal (decimal_to_packed_bcd x) = x := by
    decide
  exact h d (by omega)

/-- Witness for C4 at `d = 59`. -/
theorem bcd_round_trip_witness :
    (59 : Nat) ≤ 99 ∧ packed_bcd_to_decimal (decimal_to_packed_bcd 59) = 59 :=
  ⟨by decide, bcd_round_trip 59 (by decide)⟩

lemma write_register_log (bus : Bus E) (r d : Nat) :
    (write_register bus r d).2 = [BusOp.write DEVICE_ADDRESS [r, d]] := by
  cases h : bus.write DEVICE_ADDRESS [r, d] <;> simp [write_register, h]

lemma packed_bcd_small (b : Nat) (hb : b ≤ 15) : packed_bcd_to_decimal b = b := by
  have h : ∀ x < 16, packed_bcd_to_decimal x = x := by decide
  exact h b (by omega)

/-- C1: for `s ≤ 59`, `set_seconds s` first reads the seconds register and
then writes `(old & 0b1000_0000) | encode_bcd s`, preserving the clock-halt
bit of the byte it read. -/
theorem set_seconds_preserves_halt_bit (bus : Bus E) (s old : Nat)
    (hs : s ≤ 59) (hold : old ≤ 255)
    (hr : bus.writeRead DEVICE_ADDRESS [Register.SECONDS] = .ok old) :
    (set_seconds bus s).2 =
      [BusOp.writeRead DEVICE_ADDRESS [Register.SECONDS],
       BusOp.write DEVICE_ADDRESS
         [Register.SECONDS, old &&& BitFlags.CH ||| decimal_to_packed_bcd s]] := by
  have hns : ¬ s > 59 := by omega
  cases hw : bus.write DEVICE_ADDRESS
      [Register.SECONDS, old &&& BitFlags.CH ||| decimal_to_packed_bcd s] <;>
    simp [set_seconds, if_neg hns, read_register, write_register, hr, hw]

/-- Witness for C1: with the read returning `0b1000_0000`, `set_seconds 59`
writes the byte `0b1101_1001`. -/
theorem set_seconds_preserves_halt_bit_witness :
    (set_seconds (busConst 0b10000000) 59).2 =
      [BusOp.writeRead DEVICE_ADDRESS [Register.SECONDS],
       BusOp.write DEVICE_ADDRESS [Register.SECONDS, 0b11011001]] := by
  rw [set_seconds_preserves_halt_bit (busConst 0b10000000) 59 0b10000000
    (by decide) (by decide) rfl]
  rfl

/-- C8: `get_seconds` decodes the read byte after clearing bit 7, so the
clock-halt bit never affects the returned value. -/
theorem get_seconds_masks_ch (bus : Bus E) (b : Nat) (hb : b ≤ 255)
    (hr : bus.writeRead DEVICE_ADDRESS [Register.SECONDS] = .ok b) :
    (get_seconds bus).1 = .ok (packed_bcd_to_decimal (b &&& 0b01111111)) := by
  simp [get_seconds, read_register, hr, remove_ch_bit, not8, BitFlags.CH]

/-- Witness for C8: raw byte `0b1101_1001` reads as 59, the same as
`0b0101_1001`. -/
theorem get_seconds_masks_ch_witness :
    (get_seconds (busConst 0b11011001)).1 = .ok 59 ∧
      (get_seconds (busConst 0b01011001)).1 = .ok 59 := by
  constructor
  · rw [get_seconds_masks_ch (busConst 0b11011001) 0b11011001 (by decide) rfl]
    rfl
  · rw [get_seconds_masks_ch (busConst 0b01011001) 0b01011001 (by decide) rfl]
    rfl

/-- C7: `get_year` returns `2000 + decode_bcd b` for the byte `b` it reads,
and for `2000 ≤ y ≤ 2099` `set_year y` writes `encode_bcd (y - 2000)` to the
year register. -/
theorem year_stored_as_bcd_offset (bus : Bus E) :
    (∀ b ≤ 255, bus.writeRead DEVICE_ADDRESS [Register.YEAR] = .ok b →
      (get_year bus).1 = .ok (2000 + packed_bcd_to_decimal b)) ∧
    (∀ y, 2000 ≤ y → y ≤ 2099 →
      (set_year bus y).2 =
        [BusOp.write DEVICE_ADDRESS
          [Register.YEAR, decimal_to_packed_bcd (y - 2000)]]) := by
  constructor
  · intro b _ hr
    simp [get_year, read_register_decimal, read_register, hr]
  · intro y hy1 hy2
    have hny : ¬ (y < 2000 ∨ y > 2099) := by omega
    simp [set_year, if_neg hny, write_register_decimal, write_register_log]

/-- Witness for C7: raw byte `0b1001_1001` reads as year 2099 and
`set_year 2099` writes `0b1001_1001`. -/
theorem year_stored_as_bcd_offset_witness :
    (get_year (busConst 0b10011001)).1 = .ok 2099 ∧
      (set_year (busConst 0b10011001) 2099).2 =
        [BusOp.write DEVICE_ADDRESS [Register.YEAR, 0b10011001]] := by
  constructor
  · rw [(year_stored_as_bcd_offset (busConst 0b10011001)).1 0b10011001
      (by decide) rfl]
    rfl
  · rw [(year_stored_as_bcd_offset (busConst 0b10011001)).2 2099
      (by decide) (by decide)]
    rfl

/-- C6 counterexample: `get_day_of_week` does not return every register byte
unchanged: when the peripheral returns byte 16, the getter BCD-decodes it
and yields 10, not 16. -/
theorem get_day_of_week_not_raw :
    (busConst 16).writeRead DEVICE_ADDRESS [Register.DOW] = .ok 16 ∧
      (get_day_of_week (busConst 16)).1 = .ok 10 ∧
      (get_day_of_week (busConst 16)).1 ≠ .ok 16 := by
  refine ⟨rfl, rfl, ?_⟩
  intro h
  have h10 : (get_day_of_week (busConst 16)).1 = Except.ok 10 := rfl
  rw [h10] at h
  exact absurd (Except.ok.inj h) (by decide)

/-- C6 amended: for a register byte whose high nibble is zero (`b ≤ 15`, in
particular the valid 1-7 range), `get_day_of_week` returns the byte
unchanged, and `set_day_of_week d` for `1 ≤ d ≤ 7` writes the payload
`[0x03, d]` with the data byte equal to `d` itself (no BCD encoding). -/
theorem day_of_week_raw (bus : Bus E) :
    (∀ b ≤ 15, bus.writeRead DEVICE_ADDRESS [Register.DOW] = .ok b →
      (get_day_of_week bus).1 = .ok b) ∧
    (∀ d, 1 ≤ d → d ≤ 7 →
      (set_day_of_week bus d).2 =
        [BusOp.write DEVICE_ADDRESS [Register.DOW, d]]) := by
  constructor
  · intro b hb hr
    simp [get_day_of_week, read_register_decimal, read_register, hr,
      packed_bcd_small b hb]
  · intro d hd1 hd7
    have hnd : ¬ (d < 1 ∨ d > 7) := by omega
    simp only [set_day_of_week]
    rw [if_neg hnd, write_register_log]

/-- Witness for the amended C6 at byte 7 and day 7. -/
theorem day_of_week_raw_witness :
    (get_day_of_week (busConst 7)).1 = .ok 7 ∧
      (set_day_of_week (busConst 7) 7).2 =
        [BusOp.write DEVICE_ADDRESS [Register.DOW, 7]] := by
  constructor
  · rw [(day_of_week_raw (busConst 7)).1 7 (by decide) rfl]
  · rw [(day_of_week_raw (busConst 7)).2 7 (by decide) (by decide)]

/-- C5: the day-of-month setter (modelled from the spec, see
`set_day_of_month`) issues exactly one write transaction carrying the
BCD-encoded value to register 0x04 for `1 ≤ d ≤ 31`, and fails with the
invalid-input error and no transaction for `d` outside 1-31. -/
theorem set_day_of_month_spec (bus : Bus E) :
    (∀ d, 1 ≤ d → d ≤ 31 →
      (set_day_of_month bus d).2 =
        [BusOp.write DEVICE_ADDRESS [Register.DOM, decimal_to_packed_bcd d]]) ∧
    (∀ d, d < 1 ∨ d > 31 →
      set_day_of_month bus d = (.error .InvalidInputData, [])) := by
  constructor
  · intro d hd1 hd31
    have hnd : ¬ (d < 1 ∨ d > 31) := by omega
    simp only [set_day_of_month, write_register_decimal]
    rw [if_neg hnd, write_register_log]
  · intro d hd
    simp only [set_day_of_month]
    rw [if_pos hd]

/-- Witness for C5: `set_day_of_month 7` writes `[0x04, 0b0000_0111]`;
`set_day_of_month 32` and `set_day_of_month 0` fail with invalid input and
an empty transaction log. -/
theorem set_day_of_month_spec_witness :
    (set_day_of_month (busConst 0) 7).2 =
        [BusOp.write DEVICE_ADDRESS [Register.DOM, 0b00000111]] ∧
      set_day_of_month (busConst 0) 32 = (.error .InvalidInputData, []) ∧
      set_day_of_month (busConst 0) 0 = (.error .InvalidInputData, []) := by
  refine ⟨?_, ?_, ?_⟩
  · rw [(set_day_of_month_spec (busConst 0)).1 7 (by decide) (by decide)]
    rfl
  · rw [(set_day_of_month_spec (busConst 0)).2 32 (by decide)]
  · rw [(set_day_of_month_spec (busConst 0)).2 0 (by decide)]

/-- C3: every setter rejects out-of-range input with `InvalidInputData` and
issues zero bus transactions (empty transaction log). -/
theorem setters_reject_out_of_range (bus : Bus E) :
    (∀ s, s > 59 → set_seconds bus s = (.error .InvalidInputData, [])) ∧
    (∀ m, m > 59 → set_minutes bus m = (.error .InvalidInputData, [])) ∧
    (∀ d, d < 1 ∨ d > 7 →
      set_day_of_week bus d = (.error .InvalidInputData, [])) ∧
    (∀ m, m < 1 ∨ m > 12 → set_month bus m = (.error .InvalidInputData, [])) ∧
    (∀ y, y < 2000 ∨ y > 2099 →
      set_year bus y = (.error .InvalidInputData, [])) ∧
    (∀ h, h > 23 → set_hours bus (Hours.H24 h) = (.error .InvalidInputData, [])) ∧
    (∀ h, h < 1 ∨ h > 12 →
      set_hours bus (Hours.AM h) = (.error .InvalidInputData, [])) ∧
    (∀ h, h < 1 ∨ h > 12 →
      set_hours bus (Hours.PM h) = (.error .InvalidInputData, [])) := by
  refine ⟨?_, ?_, ?_, ?_, ?_, ?_, ?_, ?_⟩ <;> intro x hx
  · simp only [set_seconds]
    rw [if_pos hx]
  · simp only [set_minutes]
    rw [if_pos hx]
  · simp only [set_day_of_week]
    rw [if_pos hx]
  · simp only [set_month]
    rw [if_pos hx]
  · simp only [set_year]
    rw [if_pos hx]
  · simp only [set_hours]
    rw [if_pos hx]
  · simp only [set_hours]
    rw [if_pos hx]
  · simp only [set_hours]
    rw [if_pos hx]

/-- Witness for C3 at representative out-of-range inputs. -/
theorem setters_reject_out_of_range_witness :
    set_seconds (busConst 0) 60 = (.error .InvalidInputData, []) ∧
      set_hours (busConst 0) (Hours.AM 13) = (.error .InvalidInputData, []) ∧
      set_year (busConst 0) 1999 = (.error .InvalidInputData, []) := by
  obtain ⟨h1, h2, h3, h4, h5, h6, h7, h8⟩ :=
    setters_reject_out_of_range (busConst 0)
  exact ⟨h1 60 (by decide), h7 13 (by decide), h5 1999 (by decide)⟩

lemma set_hours_valid_eq (bus : Bus E) (hrs : Hours) (hv : validHours hrs) :
    set_hours bus hrs = write_register bus Register.HOURS (hours_byte hrs) := by
  cases hrs with
  | H24 h =>
    simp only [validHours] at hv
    simp only [set_hours, hours_byte, write_register_decimal]
    rw [if_neg (by omega)]
  | AM h =>
    simp only [validHours] at hv
    simp only [set_hours, hours_byte]
    rw [if_neg (by omega)]
  | PM h =>
    simp only [validHours] at hv
    simp only [set_hours, hours_byte]
    rw [if_neg (by omega)]

lemma decode_hours_byte_h24 :
    ∀ h < 24, decode_hours (hours_byte (Hours.H24 h)) = Hours.H24 h := by
  decide

lemma decode_hours_byte_am :
    ∀ h < 13, 1 ≤ h → decode_hours (hours_byte (Hours.AM h)) = Hours.AM h := by
  decide

lemma decode_hours_byte_pm :
    ∀ h < 13, 1 ≤ h → decode_hours (hours_byte (Hours.PM h)) = Hours.PM h := by
  decide

/-- C2: for every valid `Hours` value, `set_hours` issues a single write to
the hours register whose data byte, decoded by the `get_hours` logic,
yields back exactly the same tagged value. -/
theorem set_hours_round_trip (bus : Bus E) (hrs : Hours) (hv : validHours hrs) :
    (set_hours bus hrs).2 =
        [BusOp.write DEVICE_ADDRESS [Register.HOURS, hours_byte hrs]] ∧
      decode_hours (hours_byte hrs) = hrs := by
  refine ⟨?_, ?_⟩
  · rw [set_hours_valid_eq bus hrs hv, write_register_log]
  · cases hrs with
    | H24 h =>
      simp only [validHours] at hv
      exact decode_hours_byte_h24 h (by omega)
    | AM h =>
      simp only [validHours] at hv
      exact decode_hours_byte_am h (by omega) hv.1
    | PM h =>
      simp only [validHours] at hv
      exact decode_hours_byte_pm h (by omega) hv.1

/-- Witness for C2: `set_hours (H24 23)` writes `0b0010_0011`,
`set_hours (AM 12)` writes `0b0101_0010`, `set_hours (PM 12)` writes
`0b0111_0010`, and each byte decodes back to the same tagged value. -/
theorem set_hours_round_trip_witness :
    ((set_hours (busConst 0) (Hours.H24 23)).2 =
        [BusOp.write DEVICE_ADDRESS [Register.HOURS, 0b00100011]] ∧
      decode_hours 0b00100011 = Hours.H24 23) ∧
    ((set_hours (busConst 0) (Hours.AM 12)).2 =
        [BusOp.write DEVICE_ADDRESS [Register.HOURS, 0b01010010]] ∧
      decode_hours 0b01010010 = Hours.AM 12) ∧
    ((set_hours (busConst 0) (Hours.PM 12)).2 =
        [BusOp.write DEVICE_ADDRESS [Register.HOURS, 0b01110010]] ∧
      decode_hours 0b01110010 = Hours.PM 12) :=
  ⟨set_hours_round_trip (busConst 0) (Hours.H24 23) (by decide),
   set_hours_round_trip (busConst 0) (Hours.AM 12) (by decide),
   set_hours_round_trip (busConst 0) (Hours.PM 12) (by decide)⟩

/-- An operation result is faithful to the transport errors of `bus`: it is
the I²C error variant carrying `e` exactly when one of the transactions it
issued failed with `e` on the bus, and it is never the internal error. -/
def i2cFaithful (bus : Bus E) (e : E) (res : Except (Error E) α × List BusOp) :
    Prop :=
  (res.1 = .error (.I2C e) ↔ ∃ op ∈ res.2, runOp bus op = .error e) ∧
  res.1 ≠ .error .InternalError

lemma except_map_ok (f : α → β) (a : α) :
    (Except.ok a : Except E α).map f = .ok (f a) := rfl

lemma except_map_error (f : α → β) (e : E) :
    (Except.error e : Except E α).map f = .error e := rfl

lemma i2cFaithful_invalid (bus : Bus E) (e : E) :
    i2cFaithful bus e
      ((Except.error Error.InvalidInputData, []) :
        Except (Error E) Unit × List BusOp) := by
  simp [i2cFaithful]

lemma i2cFaithful_write_register (bus : Bus E) (e : E) (r d : Nat) :
    i2cFaithful bus e (write_register bus r d) := by
  cases h : bus.write DEVICE_ADDRESS [r, d] <;>
    simp [i2cFaithful, write_register, runOp, h, except_map_ok, except_map_error]

lemma i2cFaithful_rrd (bus : Bus E) (e : E) (r : Nat) :
    i2cFaithful bus e (read_register_decimal bus r) := by
  cases h : bus.writeRead DEVICE_ADDRESS [r] <;>
    simp [i2cFaithful, read_register_decimal, read_register, runOp, h, except_map_ok, except_map_error]

lemma i2cFaithful_get_seconds (bus : Bus E) (e : E) :
    i2cFaithful bus e (get_seconds bus) := by
  cases h : bus.writeRead DEVICE_ADDRESS [Register.SECONDS] <;>
    simp [i2cFaithful, get_seconds, read_register, runOp, h, except_map_ok, except_map_error]

lemma i2cFaithful_get_hours (bus : Bus E) (e : E) :
    i2cFaithful bus e (get_hours bus) := by
  cases h : bus.writeRead DEVICE_ADDRESS [Register.HOURS] <;>
    simp [i2cFaithful, get_hours, read_register, runOp, h, except_map_ok, except_map_error]

lemma i2cFaithful_get_year (bus : Bus E) (e : E) :
    i2cFaithful bus e (get_year bus) := by
  cases h : bus.writeRead DEVICE_ADDRESS [Register.YEAR] <;>
    simp [i2cFaithful, get_year, read_register_decimal, read_register,
      runOp, h, except_map_ok, except_map_error]

lemma i2cFaithful_set_seconds (bus : Bus E) (e : E) (s : Nat) :
    i2cFaithful bus e (set_seconds bus s) := by
  by_cases hs : s > 59
  · simp only [set_seconds]
    rw [if_pos hs]
    exact i2cFaithful_invalid bus e
  · cases hr : bus.writeRead DEVICE_ADDRESS [Register.SECONDS] with
    | error f =>
      simp only [set_seconds]
      rw [if_neg hs]
      simp [i2cFaithful, read_register, runOp, hr, except_map_ok, except_map_error]
    | ok b =>
      cases hw : bus.write DEVICE_ADDRESS
          [Register.SECONDS, b &&& BitFlags.CH ||| decimal_to_packed_bcd s] with
      | ok _ =>
        simp only [set_seconds]
        rw [if_neg hs]
        simp [i2cFaithful, read_register, write_register, runOp, hr, hw, except_map_ok, except_map_error]
      | error f =>
        simp only [set_seconds]
        rw [if_neg hs]
        simp [i2cFaithful, read_register, write_register, runOp, hr, hw, except_map_ok, except_map_error]

lemma i2cFaithful_set_minutes (bus : Bus E) (e : E) (m : Nat) :
    i2cFaithful bus e (set_minutes bus m) := by
  by_cases hm : m > 59
  · simp only [set_minutes]
    rw [if_pos hm]
    exact i2cFaithful_invalid bus e
  · simp only [set_minutes]
    rw [if_neg hm]
    exact i2cFaithful_write_register bus e Register.MINUTES
      (decimal_to_packed_bcd m)

lemma i2cFaithful_set_hours (bus : Bus E) (e : E) (hrs : Hours) :
    i2cFaithful bus e (set_hours bus hrs) := by
  cases hrs with
  | H24 h =>
    by_cases hh : h > 23
    · simp only [set_hours]
      rw [if_pos hh]
      exact i2cFaithful_invalid bus e
    · simp only [set_hours]
      rw [if_neg hh]
      exact i2cFaithful_write_register bus e Register.HOURS
        (decimal_to_packed_bcd h)
  | AM h =>
    by_cases hh : h < 1 ∨ h > 12
    · simp only [set_hours]
      rw [if_pos hh]
      exact i2cFaithful_invalid bus e
    · simp only [set_hours]
      rw [if_neg hh]
      exact i2cFaithful_write_register bus e Register.HOURS
        (BitFlags.H24_H12 ||| decimal_to_packed_bcd h)
  | PM h =>
    by_cases hh : h < 1 ∨ h > 12
    · simp only [set_hours]
      rw [if_pos hh]
      exact i2cFaithful_invalid bus e
    · simp only [set_hours]
      rw [if_neg hh]
      exact i2cFaithful_write_register bus e Register.HOURS
        (BitFlags.H24_H12 ||| BitFlags.AM_PM ||| decimal_to_packed_bcd h)

lemma i2cFaithful_set_day_of_week (bus : Bus E) (e : E) (d : Nat) :
    i2cFaithful bus e (set_day_of_week bus d) := by
  by_cases hd : d < 1 ∨ d > 7
  · simp only [set_day_of_week]
    rw [if_pos hd]
    exact i2cFaithful_invalid bus e
  · simp only [set_day_of_week]
    rw [if_neg hd]
    exact i2cFaithful_write_register bus e Register.DOW d

lemma i2cFaithful_set_month (bus : Bus E) (e : E) (m : Nat) :
    i2cFaithful bus e (set_month bus m) := by
  by_cases hm : m < 1 ∨ m > 12
  · simp only [set_month]
    rw [if_pos hm]
    exact i2cFaithful_invalid bus e
  · simp only [set_month]
    rw [if_neg hm]
    exact i2cFaithful_write_register bus e Register.MONTH
      (decimal_to_packed_bcd m)

lemma i2cFaithful_set_year (bus : Bus E) (e : E) (y : Nat) :
    i2cFaithful bus e (set_year bus y) := by
  by_cases hy : y < 2000 ∨ y > 2099
  · simp only [set_year]
    rw [if_pos hy]
    exact i2cFaithful_invalid bus e
  · simp only [set_year]
    rw [if_neg hy]
    exact i2cFaithful_write_register bus e Register.YEAR
      (decimal_to_packed_bcd (y - 2000))

/-- C9: for every driver operation and every transport behaviour, the result
is the I²C error variant carrying `e` exactly when one of the bus
transactions the operation issued failed with `e` (so transport failures are
propagated verbatim and for no other reason), and no operation ever returns
the internal error. -/
theorem transport_errors_propagated (bus : Bus E) (e : E) :
    i2cFaithful bus e (get_seconds bus) ∧
    i2cFaithful bus e (get_minutes bus) ∧
    i2cFaithful bus e (get_hours bus) ∧
    i2cFaithful bus e (get_day_of_week bus) ∧
    i2cFaithful bus e (get_day_of_month bus) ∧
    i2cFaithful bus e (get_month bus) ∧
    i2cFaithful bus e (get_year bus) ∧
    (∀ s, i2cFaithful bus e (set_seconds bus s)) ∧
    (∀ m, i2cFaithful bus e (set_minutes bus m)) ∧
    (∀ hrs, i2cFaithful bus e (set_hours bus hrs)) ∧
    (∀ d, i2cFaithful bus e (set_day_of_week bus d)) ∧
    (∀ m, i2cFaithful bus e (set_month bus m)) ∧
    (∀ y, i2cFaithful bus e (set_year bus y)) :=
  ⟨i2cFaithful_get_seconds bus e,
   i2cFaithful_rrd bus e Register.MINUTES,
   i2cFaithful_get_hours bus e,
   i2cFaithful_rrd bus e Register.DOW,
   i2cFaithful_rrd bus e Register.DOM,
   i2cFaithful_rrd bus e Register.MONTH,
   i2cFaithful_get_year bus e,
   i2cFaithful_set_seconds bus e,
   i2cFaithful_set_minutes bus e,
   i2cFaithful_set_hours bus e,
   i2cFaithful_set_day_of_week bus e,
   i2cFaithful_set_month bus e,
   i2cFaithful_set_year bus e⟩

/-- Witness for C9 at a concrete bus and error value. -/
theorem transport_errors_propagated_witness :
    i2cFaithful (busConst 0) () (get_seconds (busConst 0)) :=
  (transport_errors_propagated (busConst 0) ()).1

/-- C10: the BCD decoder is total on all 256 byte values and its result is
at most 165, so the `u8` arithmetic `(b >> 4) * 10 + (b & 0xF)` never wraps. -/
theorem packed_bcd_to_decimal_no_overflow :
    ∀ b < 256, packed_bcd_to_decimal b = (b >>> 4) * 10 + (b &&& 0xF) ∧
      packed_bcd_to_decimal b ≤ 165 := by
  decide

/-- Witness for C10 at `b = 255` (both nibbles malformed). -/
theorem packed_bcd_to_decimal_no_overflow_witness :
    (255 : Nat) < 256 ∧
      (packed_bcd_to_decimal 255 = (255 >>> 4) * 10 + (255 &&& 0xF) ∧
        packed_bcd_to_decimal 255 ≤ 165) :=
  ⟨by decide, packed_bcd_to_decimal_no_overflow 255 (by decide)⟩

end Ds1307
